import Mathlib

/-!
Verification of the Civitatis schedule-extraction engine (`src/scraper.py`).

The scraper drives a live browser page, so the shallow embedding models every
DOM query the code performs as a field of an explicit page-environment
structure: a locator query that may find no element becomes an `Option`, the
text/attribute values the code would read back become plain `String`s, and the
pure computations of the source (regex extraction, provider resolution, the
tiered slot enumeration, result assembly) are translated function by function.
Waits, scrolls and best-effort dismissal of overlays (cookies, chat) mutate
nothing the return value depends on and are noted in comments at the point
where the source performs them.

Python dictionaries returned to the caller are modelled as association lists
(`PyDict`) so that the presence or absence of a key is observable, exactly as
it is to the JSON-serialising persistence layer.
-/

set_option linter.unusedVariables false

namespace Civitatis

/-- Python value occurring in the result dictionaries: a string or `None`. -/
inductive PyVal where
  | s (v : String)
  | none
deriving DecidableEq, Repr

/-- A Python dict as an association list; key order and key presence are
observable, as they are in the JSON the caller serialises. -/
abbrev PyDict := List (String × PyVal)

/-- Translate an `Option String` (a value that may be Python `None`) into a
dict value. -/
def optVal : Option String → PyVal
  | some v => PyVal.s v
  | Option.none => PyVal.none

/-- Keys of a dict, in order. -/
def keys (dct : PyDict) : List String := dct.map Prod.fst

/-! ### String helpers mirroring the Python primitives used by the scraper

Python's `str.strip()`, `str.split()` and the `in` substring operator, over
`List Char`.  `\s` / `str.strip` whitespace is approximated by
`Char.isWhitespace` (space, tab, CR, LF), which covers the characters the
scraper's inputs contain. -/

/-- Python `str.strip()`: drop leading and trailing whitespace. -/
def pyStrip (s : String) : String :=
  String.mk (((s.toList.dropWhile Char.isWhitespace).reverse.dropWhile Char.isWhitespace).reverse)

/-- Whitespace-separated words of a string, as in Python `str.split()`
(runs of whitespace separate, empties discarded).  First argument is the
reversed current word accumulator. -/
def wordsAux : List Char → List Char → List (List Char)
  | acc, [] => if acc.isEmpty then [] else [acc.reverse]
  | acc, c :: rest =>
    if c.isWhitespace then
      if acc.isEmpty then wordsAux [] rest else acc.reverse :: wordsAux [] rest
    else wordsAux (c :: acc) rest

/-- Python `' '.join(classes.split())` (line 86 of the source): normalise
whitespace runs in a class attribute to single spaces. -/
def normalizeWs (s : String) : String :=
  String.intercalate " " ((wordsAux [] s.toList).map String.mk)

/-- `listPrefix p l`: `p` is a prefix of `l`. -/
def listPrefix : List Char → List Char → Bool
  | [], _ => true
  | _ :: _, [] => false
  | a :: as, b :: bs => a == b && listPrefix as bs

/-- `listInfix p l`: `p` occurs as a contiguous substring of `l`. -/
def listInfix (p : List Char) : List Char → Bool
  | [] => p.isEmpty
  | b :: bs => listPrefix p (b :: bs) || listInfix p bs

/-- Python `pat in s` substring test. -/
def hasSubstr (pat s : String) : Bool := listInfix pat.toList s.toList

/-! ### Price regexes (source lines 330, 334, 352)

The three patterns the price extractor applies are
`(\d+[.,]?\d*)\s*€`, `(\d+[.,]\d{2})` and `(\d+[.,]?\d*)\s*€?`.
Each matcher below implements Python `re.search` semantics for its pattern:
leftmost match wins and greedy quantifiers are preferred.  For these
patterns greedy maximal-munch needs no backtracking: after the maximal
digit run, an optional-separator branch that fails cannot be rescued by
giving characters back (the next character is then a separator or digit,
which can satisfy neither `\s*€` nor `€`). -/

/-- The regex class `[.,]`. -/
def sepChar (c : Char) : Bool := c == '.' || c == ','

/-- Match `(\d+[.,]?\d*)\s*€` anchored at the head of `l`; returns the
capture group. -/
def matchPrice1At (l : List Char) : Option (List Char) :=
  match l with
  | [] => Option.none
  | c :: _ =>
    if c.isDigit then
      let p1 := l.span Char.isDigit
      let gr : List Char × List Char :=
        match p1.2 with
        | s :: rest =>
          if sepChar s then
            let p2 := rest.span Char.isDigit
            (p1.1 ++ s :: p2.1, p2.2)
          else (p1.1, p1.2)
        | [] => (p1.1, [])
      match gr.2.dropWhile Char.isWhitespace with
      | '€' :: _ => some gr.1
      | _ => Option.none
    else Option.none

/-- `re.search` for `(\d+[.,]?\d*)\s*€`. -/
def searchPrice1 : List Char → Option (List Char)
  | [] => Option.none
  | c :: rest =>
    match matchPrice1At (c :: rest) with
    | some g => some g
    | Option.none => searchPrice1 rest

/-- Match `(\d+[.,]\d{2})` anchored at the head of `l`. -/
def matchPrice2At (l : List Char) : Option (List Char) :=
  match l with
  | [] => Option.none
  | c :: _ =>
    if c.isDigit then
      let p1 := l.span Char.isDigit
      match p1.2 with
      | s :: a :: b :: _ =>
        if sepChar s && a.isDigit && b.isDigit then some (p1.1 ++ [s, a, b]) else Option.none
      | _ => Option.none
    else Option.none

/-- `re.search` for `(\d+[.,]\d{2})`. -/
def searchPrice2 : List Char → Option (List Char)
  | [] => Option.none
  | c :: rest =>
    match matchPrice2At (c :: rest) with
    | some g => some g
    | Option.none => searchPrice2 rest

/-- Match `(\d+[.,]?\d*)\s*€?` anchored at the head of `l` (the `€` is
optional, so any position starting with a digit matches). -/
def matchPrice3At (l : List Char) : Option (List Char) :=
  match l with
  | [] => Option.none
  | c :: _ =>
    if c.isDigit then
      let p1 := l.span Char.isDigit
      match p1.2 with
      | s :: rest => if sepChar s then some (p1.1 ++ s :: (rest.span Char.isDigit).1) else some p1.1
      | [] => some p1.1
    else Option.none

/-- `re.search` for `(\d+[.,]?\d*)\s*€?`. -/
def searchPrice3 : List Char → Option (List Char)
  | [] => Option.none
  | c :: rest =>
    match matchPrice3At (c :: rest) with
    | some g => some g
    | Option.none => searchPrice3 rest

/-! ### Price extractor (`extract_price`, source lines 308-358)

The function walks the fixed selector list; a found element's text is
stripped and the two regexes are tried in order, the matching group getting
the suffix `" €"`.  If no selector produces a price, a page-side script
reads one of two known price fields (modelled as `jsResult`; `Option.none`
covers the script returning `null` as well as the `except: pass` around the
evaluation) and the third regex is applied to a truthy (non-empty) result.
If everything fails the extractor returns `None`. -/

/-- The ordered selector list of source lines 313-322. -/
def price_selectors : List String :=
  ["#tPrecioSpan0",
   ".m-activity-price__top .a-text--price--big",
   ".a-text--price--big",
   ".pax-price",
   "[class*=\"price-final\"]",
   ".total-price",
   "#precioTotal",
   ".booking-price"]

/-- Page environment for one run of the price extractor.  `selectorText sel`
is the stripped-ready text the page would yield for CSS selector `sel`
(`Option.none` when no element matches; the source's `or \x22\x22` default for a
null `text_content` is already applied, so a present element always yields a
string).  `jsResult` is what the page-side evaluation of lines 340-350 would
return. -/
structure PricePage where
  selectorText : String → Option String
  jsResult : Option String

/-- Lines 327-336: strip the element text, try regex 1 then regex 2,
suffix the group with `" €"`. -/
def tryText (t : String) : Option String :=
  let txt := (pyStrip t).toList
  match searchPrice1 txt with
  | some g => some (String.mk g ++ " €")
  | Option.none =>
    match searchPrice2 txt with
    | some g => some (String.mk g ++ " €")
    | Option.none => Option.none

/-- The selector loop of lines 324-336: first selector whose element text
yields a regex match wins; a present element with no match falls through to
the next selector. -/
def priceFromSelectors (pg : PricePage) : List String → Option String
  | [] => Option.none
  | sel :: rest =>
    match pg.selectorText sel with
    | some t =>
      match tryText t with
      | some p => some p
      | Option.none => priceFromSelectors pg rest
    | Option.none => priceFromSelectors pg rest

/-- `extract_price` (lines 308-358). -/
def extract_price (pg : PricePage) : Option String :=
  match priceFromSelectors pg price_selectors with
  | some p => some p
  | Option.none =>
    match pg.jsResult with
    | some js =>
      if js ≠ "" then
        match searchPrice3 js.toList with
        | some g => some (String.mk g ++ " €")
        | Option.none => Option.none
      else Option.none
    | Option.none => Option.none

/-! ### Operator extractor (`extract_operator_info`, source lines 263-305) -/

/-- The ordered selector list of source lines 267-277. -/
def operator_selectors : List String :=
  [".operator-name",
   ".provider-name",
   "[class*=\"operator\"]",
   "[class*=\"provider\"]",
   "[data-operator]",
   ".activity-operator",
   ".tour-operator",
   ".m-cart-item__operator",
   ".cart-operator"]

/-- Page environment for the operator extractor: per-selector element text
(`Option.none` covers both a missing element and a `None` `text_content`)
and the full rendered document (`page.content()`). -/
structure OperatorPage where
  selectorText : String → Option String
  content : String

/-- Match a literal character sequence at the head of `l`, returning the
remainder. -/
def litMatch : List Char → List Char → Option (List Char)
  | [], l => some l
  | _ :: _, [] => Option.none
  | p :: ps, c :: cs => if p == c then litMatch ps cs else Option.none

/-- The regex class `[:\s]` of the label patterns on lines 291-293. -/
def isSepChar (c : Char) : Bool := c == ':' || c.isWhitespace

/-- The regex class `[^<\n,]` of the label patterns' capture group. -/
def capAllowed (c : Char) : Bool := !(c == '<' || c == '\n' || c == ',')

/-- Backtracking of the greedy `[:\s]+` when the capture that follows it
would be empty: give separator characters back from the right until one of
them can itself start the capture.  The capture is then that single
character (the character after it was already seen to be excluded). -/
def giveBack : List Char → Option (List Char)
  | [] => Option.none
  | c :: rest => if capAllowed c then some [c] else giveBack rest

/-- Match one label pattern `[Xx]word[:\s]+([^<\n,]+)` anchored at the head
of `l`, returning the capture group. -/
def labelMatchAt (up low : Char) (word : List Char) (l : List Char) : Option (List Char) :=
  match l with
  | [] => Option.none
  | c :: rest =>
    if c == up || c == low then
      match litMatch word rest with
      | some rest₂ =>
        let p := rest₂.span isSepChar
        if p.1.isEmpty then Option.none
        else
          match p.2.span capAllowed with
          | (d :: ds, _) => some (d :: ds)
          | ([], _) => giveBack p.1.reverse
      | Option.none => Option.none
    else Option.none

/-- `re.search` for a label pattern. -/
def labelSearch (up low : Char) (word : List Char) : List Char → Option (List Char)
  | [] => Option.none
  | c :: rest =>
    match labelMatchAt up low word (c :: rest) with
    | some g => some g
    | Option.none => labelSearch up low word rest

/-- Match one JSON pattern `"key"[:\s]*"([^"]+)"` anchored at the head of
`l`, returning the capture group. -/
def jsonMatchAt (key : List Char) (l : List Char) : Option (List Char) :=
  match litMatch ('"' :: key ++ ['"']) l with
  | some rest =>
    match rest.dropWhile isSepChar with
    | '"' :: rest₂ =>
      match rest₂.span (fun c => !(c == '"')) with
      | (d :: ds, rest₃) =>
        match rest₃ with
        | '"' :: _ => some (d :: ds)
        | _ => Option.none
      | ([], _) => Option.none
    | _ => Option.none
  | Option.none => Option.none

/-- `re.search` for a JSON pattern. -/
def jsonSearch (key : List Char) : List Char → Option (List Char)
  | [] => Option.none
  | c :: rest =>
    match jsonMatchAt key (c :: rest) with
    | some g => some g
    | Option.none => jsonSearch key rest

/-- Lines 300-303: the first match of a pattern is accepted only when its
stripped capture has length strictly between 2 and 100; otherwise the NEXT
pattern is tried (not a later match of the same pattern). -/
def tryPat (res : Option (List Char)) : Option String :=
  match res with
  | some g =>
    let st := pyStrip (String.mk g)
    if 2 < st.length ∧ st.length < 100 then some st else Option.none
  | Option.none => Option.none

/-- The ordered regex cascade of lines 290-303 over the page content. -/
def contentSearch (content : List Char) : Option String :=
  match tryPat (labelSearch 'O' 'o' "perador".toList content) with
  | some st => some st
  | Option.none =>
  match tryPat (labelSearch 'P' 'p' "rovider".toList content) with
  | some st => some st
  | Option.none =>
  match tryPat (labelSearch 'O' 'o' "rganizador".toList content) with
  | some st => some st
  | Option.none =>
  match tryPat (jsonSearch "operator".toList content) with
  | some st => some st
  | Option.none => tryPat (jsonSearch "provider".toList content)

/-- The selector loop of lines 279-284: first element whose text is truthy
and non-whitespace is returned stripped. -/
def operatorFromSelectors (pg : OperatorPage) : List String → Option String
  | [] => Option.none
  | sel :: rest =>
    match pg.selectorText sel with
    | some t =>
      if t ≠ "" ∧ pyStrip t ≠ "" then some (pyStrip t) else operatorFromSelectors pg rest
    | Option.none => operatorFromSelectors pg rest

/-- `extract_operator_info` (lines 263-305). -/
def extract_operator_info (pg : OperatorPage) : String :=
  match operatorFromSelectors pg operator_selectors with
  | some st => st
  | Option.none =>
    match contentSearch pg.content.toList with
    | some st => st
    | Option.none => "No encontrado"

/-! ### Calendar navigator (`select_date_on_calendar`, source lines 12-96)

The function first waits up to 15s for a calendar widget (`widgetPresent`),
then reads the first non-adjacent day cell's class to decide how many times
to click the month-pagination buttons (lines 38-62).  Those clicks only
change which month the calendar displays; the cell lists below model the
page as it stands when the day-cell queries of lines 69-96 run, i.e. after
the navigation phase, so the pagination loop contributes no further
observable state of its own.  `tdCells` are the class attributes of the
`td` elements the fast-path CSS substring selector ranges over (line 68,
matched against the RAW attribute); `dayCells` are the class attributes of
the `.clndr-table td.day` cells of the fallback scan (lines 80-96, matched
after whitespace normalisation).  The date string was produced by
`strptime`/f-string formatting of lines 23-26 and 65, modelled by
`targetClass` from the parsed year/month/day. -/

structure CalendarPage where
  widgetPresent : Bool
  tdCells : List String
  dayCells : List String

/-- Two-digit zero padding, as in the `:02d` format specifier. -/
def pad2 (n : Nat) : String := if n < 10 then "0" ++ toString n else toString n

/-- `f"calendar-day-{target_year}-{target_month:02d}-{target_day:02d}"`
(lines 65 and 68/88). -/
def targetClass (y m d : Nat) : String :=
  "calendar-day-" ++ toString y ++ "-" ++ pad2 m ++ "-" ++ pad2 d

/-- The fallback linear scan of lines 83-96: first cell whose normalised
class contains the date class decides; inactive ⇒ `(none, false)` at once,
active ⇒ click it and succeed.  Returns the clicked cell (if any) and the
boolean result. -/
def fallbackScan (target : String) : List String → Option String × Bool
  | [] => (Option.none, false)
  | cls :: rest =>
    let n := normalizeWs cls
    if hasSubstr target n then
      if hasSubstr "inactive" n then (Option.none, false) else (some cls, true)
    else fallbackScan target rest

/-- `select_date_on_calendar` (lines 12-96): returns the day cell that was
clicked (by its class attribute), if any, together with the boolean the
source returns. -/
def select_date_on_calendar (pg : CalendarPage) (y m d : Nat) : Option String × Bool :=
  if pg.widgetPresent = false then (Option.none, false)
  else
    let target := targetClass y m d
    match pg.tdCells.find? (fun cls => hasSubstr target cls) with
    | some cls =>
      if hasSubstr "inactive" cls then fallbackScan target pg.dayCells
      else (some cls, true)
    | Option.none => fallbackScan target pg.dayCells

/-! ### Slot enumerator (source lines 157-199) -/

/-- A `#horaActividad option` element: its `value` and `data-quota`
attributes, each already defaulted to `\x22\x22` by the source's `or \x22\x22`. -/
structure OptionEl where
  value : String
  dataQuota : String
deriving DecidableEq, Repr

/-- One discovered slot candidate (the dicts built on lines 173-199). -/
structure Schedule where
  time : String
  index : Nat
  quota : Option String
deriving DecidableEq, Repr

/-- Lines 169-172: a non-empty, non-whitespace `data-quota` becomes the
human string `f"Ultimas {quota} plazas"` (built from the RAW attribute). -/
def quotaText (quota : String) : Option String :=
  if quota ≠ "" ∧ pyStrip quota ≠ "" then some ("Ultimas " ++ quota ++ " plazas") else Option.none

/-- The dropdown scan of lines 164-177, `i` being the DOM position of the
head of the remaining option list.  A candidate's `index` is `i - 1`, and
options with an empty `value` are skipped without consuming an index. -/
def tier1Scan : Nat → List OptionEl → List Schedule
  | _, [] => []
  | i, o :: rest =>
    if o.value ≠ "" then
      ⟨o.value, i - 1, quotaText o.dataQuota⟩ :: tier1Scan (i + 1) rest
    else tier1Scan (i + 1) rest

/-- Tier 1 (lines 160-177): only runs when the dropdown has more than one
option; the first (placeholder) option is skipped unconditionally. -/
def tier1 (opts : List OptionEl) : List Schedule :=
  if opts.length > 1 then tier1Scan 1 (opts.drop 1) else []

/-- The radio scan of lines 184-192: `index` is the radio's DOM position
`i`; empty values are skipped without consuming an index. -/
def tier2Scan : Nat → List String → List Schedule
  | _, [] => []
  | i, v :: rest =>
    if v ≠ "" then ⟨v, i, Option.none⟩ :: tier2Scan (i + 1) rest
    else tier2Scan (i + 1) rest

/-- Tier 2 (lines 180-192) over the `input[name="horaActividad-radios"]`
values. -/
def tier2 (vals : List String) : List Schedule := tier2Scan 0 vals

/-- `\w` for the word boundaries of the `\b(\d{1,2}:\d{2})\b` pattern. -/
def isWordChar (c : Char) : Bool := c.isAlphanum || c == '_'

/-- True when the list does not begin with a word character (the trailing
`\b` of the time pattern). -/
def noWordHead : List Char → Bool
  | [] => true
  | c :: _ => !(isWordChar c)

/-- Greedy two-digit-hour attempt of `\d{1,2}:\d{2}\b` after an initial
digit `a`. -/
def tryTime2 (a : Char) (rest₁ : List Char) : Option (List Char × List Char) :=
  match rest₁ with
  | b :: ':' :: c :: d :: rest₂ =>
    if b.isDigit && c.isDigit && d.isDigit && noWordHead rest₂ then
      some ([a, b, ':', c, d], rest₂)
    else Option.none
  | _ => Option.none

/-- One-digit-hour fallback of `\d{1,2}:\d{2}\b`. -/
def tryTime1 (a : Char) (rest₁ : List Char) : Option (List Char × List Char) :=
  match rest₁ with
  | ':' :: c :: d :: rest₂ =>
    if c.isDigit && d.isDigit && noWordHead rest₂ then some ([a, ':', c, d], rest₂)
    else Option.none
  | _ => Option.none

/-- Match `\d{1,2}:\d{2}\b` anchored at the head of `l` (the leading `\b`
is checked by the scanner); returns the match and the remainder. -/
def matchTimeAt (l : List Char) : Option (List Char × List Char) :=
  match l with
  | [] => Option.none
  | a :: rest₁ =>
    if a.isDigit then
      match tryTime2 a rest₁ with
      | some r => some r
      | Option.none => tryTime1 a rest₁
    else Option.none

/-- `re.findall(r'\b(\d{1,2}:\d{2})\b', ...)`: scan left to right, a match
may only start where the previous character is not a word character, and
scanning resumes after each (non-overlapping) match.  Fuelled by the input
length, which always suffices since a match consumes at least four
characters. -/
def findTimesAux : Nat → Bool → List Char → List String
  | 0, _, _ => []
  | _ + 1, _, [] => []
  | n + 1, prevWord, c :: rest =>
    if prevWord then findTimesAux n (isWordChar c) rest
    else
      match matchTimeAt (c :: rest) with
      | some (m, rest₂) => String.mk m :: findTimesAux n true rest₂
      | Option.none => findTimesAux n (isWordChar c) rest

/-- All `H:MM` / `HH:MM` substrings of the form text (line 197). -/
def findTimes (l : List Char) : List String := findTimesAux l.length false l

/-- Code-point lexicographic `≤` on character lists, the order Python uses
to compare strings. -/
def strLeChars : List Char → List Char → Bool
  | [], _ => true
  | _ :: _, [] => false
  | a :: as, b :: bs => if a < b then true else if b < a then false else strLeChars as bs

/-- Code-point lexicographic `≤` on strings. -/
def strLe (x y : String) : Bool := strLeChars x.toList y.toList

/-- Insertion into a lexicographically sorted list of strings. -/
def insertStr (x : String) : List String → List String
  | [] => [x]
  | y :: ys => if strLe x y then x :: y :: ys else y :: insertStr x ys

/-- Python `sorted(...)` over strings (code-point lexicographic order). -/
def sortStrs (l : List String) : List String := l.foldr insertStr []

/-- `enumerate(...)` of line 198: consecutive indices from `n`. -/
def tier3Scan : Nat → List String → List Schedule
  | _, [] => []
  | i, t :: rest => ⟨t, i, Option.none⟩ :: tier3Scan (i + 1) rest

/-- Tier 3 (lines 194-199): regex-scrape the form text, deduplicate
(`set(...)`), sort, and enumerate with consecutive indices. -/
def tier3 (formText : String) : List Schedule :=
  tier3Scan 0 (sortStrs (findTimes formText.toList).eraseDups)

/-! ### Slot resolver and `get_schedules_and_operators` (source lines 99-260) -/

/-- The static provider directory of lines 207-212. -/
def provider_names : List (String × String) :=
  [("36417", "Enroma"),
   ("285", "Tourismotion"),
   ("6130", "Vivicos"),
   ("54973", "Rutasromanas")]

/-- Line 247: `provider_names.get(provider_id, f"Proveedor #{provider_id}")
if provider_id else "Desconocido"`. -/
def resolve_operator (provider_id : String) : String :=
  if provider_id ≠ "" then
    match provider_names.lookup provider_id with
    | some nm => nm
    | Option.none => "Proveedor #" ++ provider_id
  else "Desconocido"

/-- What the page exposes once a candidate has been activated (lines
216-250).  The activation itself — clicking the radio whose value is the
schedule's time, falling back to setting the dropdown value and dispatching
a change event — only mutates page state; its observable outcome is this
view.  `providerField` is the `#idProveedor` locator result:
`Option.none` when the field is absent (line 243's count check fails), and
the `value` attribute already defaulted by `or \x22\x22` otherwise. -/
structure SlotView where
  providerField : Option String
  pricePage : PricePage

/-- Lines 240-258: read the provider id, resolve the operator, extract the
price, and assemble the per-slot result dict (five keys, in source
order). -/
def resolveSlot (view : SlotView) (sch : Schedule) : PyDict :=
  let provider_id := view.providerField.getD ""
  [("time", PyVal.s sch.time),
   ("operator", PyVal.s (resolve_operator provider_id)),
   ("price", optVal (extract_price view.pricePage)),
   ("quota", optVal sch.quota),
   ("provider_id", PyVal.s provider_id)]

/-- The whole page session as `get_schedules_and_operators` observes it
after navigation (line 115), cookie/chat dismissal and the scroll to the
booking section (lines 119-146) — steps that mutate nothing the return
value reads.  The enumeration sources are the dropdown options, the radio
values and the booking-form text; `emptyOperatorPage`/`emptyPricePage` are
the environments of the extractor calls on lines 202-203, and `slotView`
is the page view produced by activating a given candidate. -/
structure SchedulePage where
  calendar : CalendarPage
  selectOptions : List OptionEl
  radios : List String
  formText : String
  emptyOperatorPage : OperatorPage
  emptyPricePage : PricePage
  slotView : Schedule → SlotView

/-- The tier cascade of lines 157-199: each tier runs only when the
previous produced nothing. -/
def enumerate_schedules (pg : SchedulePage) : List Schedule :=
  let s1 := tier1 pg.selectOptions
  if s1 ≠ [] then s1
  else
    let s2 := tier2 pg.radios
    if s2 ≠ [] then s2 else tier3 pg.formText

/-- The sentinel of line 151 (date selection failed). -/
def dateFailResult : PyDict :=
  [("time", PyVal.s "N/A"),
   ("operator", PyVal.s "No se pudo seleccionar la fecha"),
   ("price", PyVal.none)]

/-- The sentinel of line 204 (no schedules found); carries the extracted
price but a fixed operator message. -/
def noSchedulesResult (price : Option String) : PyDict :=
  [("time", PyVal.s "N/A"),
   ("operator", PyVal.s "No se encontraron horarios"),
   ("price", optVal price)]

/-- The sentinel of line 385 (empty result list). -/
def noResultsResult : PyDict :=
  [("time", PyVal.s "N/A"),
   ("operator", PyVal.s "No se encontraron resultados"),
   ("price", PyVal.none)]

/-- The sentinel of line 387 (`f"Error: {str(e)}"`). -/
def errorResult (msg : String) : PyDict :=
  [("time", PyVal.s "N/A"),
   ("operator", PyVal.s ("Error: " ++ msg)),
   ("price", PyVal.none)]

/-- `get_schedules_and_operators` (lines 99-260).  `url` and `language`
are the source's parameters: `url` is consumed by the navigation (already
folded into `pg`) and `language` is accepted but never read. -/
def get_schedules_and_operators (pg : SchedulePage) (url : String) (y m d : Nat)
    (language : String) : List PyDict :=
  if (select_date_on_calendar pg.calendar y m d).2 = false then [dateFailResult]
  else
    let schedules := enumerate_schedules pg
    if schedules = [] then
      -- line 202 computes the operator and never uses it; the returned
      -- dict carries the fixed message instead
      let _operator := extract_operator_info pg.emptyOperatorPage
      [noSchedulesResult (extract_price pg.emptyPricePage)]
    else
      schedules.map (fun sch => resolveSlot (pg.slotView sch) sch)

/-- `compare_all_schedules` (lines 361-389).  The browser session of lines
373-381 is assumed obtained; `session` is the outcome of the `try` body:
`Except.ok pg` when every page interaction behaves (yielding the page
environment), `Except.error e` when anything inside the body raises — the
`except Exception` of line 386 turns that into the error sentinel, and the
`finally` teardown of the external browser handle is not modelled. -/
def compare_all_schedules (session : Except String SchedulePage) (url : String)
    (y m d : Nat) (language : String) : List PyDict :=
  match session with
  | Except.ok pg =>
    let results := get_schedules_and_operators pg url y m d language
    if results = [] then [noResultsResult] else results
  | Except.error e => [errorResult e]

/-! ### Concrete page environments used to evaluate the development -/

/-- An operator-extractor environment with no matching elements and empty
content. -/
def opNone : OperatorPage := ⟨fun _ => Option.none, ""⟩

/-- A price-extractor environment with no matching elements and a null
page-side read. -/
def prNone : PricePage := ⟨fun _ => Option.none, Option.none⟩

/-- A slot view with the `#idProveedor` field absent and no price. -/
def svNone : SlotView := ⟨Option.none, prNone⟩

/-- A page whose calendar widget never appears within the bounded wait. -/
def calAbsent : CalendarPage := ⟨false, [], []⟩

/-- A calendar displaying an active cell for 2025-02-15. -/
def calPresent : CalendarPage := ⟨true, ["day calendar-day-2025-02-15"], []⟩

/-- A calendar whose only 2025-02-15 cell is inactive and reachable only by
the fallback scan (double space defeats the raw fast-path substring). -/
def calInactive : CalendarPage := ⟨true, [], ["day  inactive calendar-day-2025-02-15"]⟩

/-- Booking-form price display reading `"25,00 €"`. -/
def pricePageA : PricePage :=
  ⟨fun sel => if sel = "#tPrecioSpan0" then some "25,00 €" else Option.none, Option.none⟩

/-- Total-price element reading `"Total: 18.50"` (no currency symbol). -/
def pricePageB : PricePage :=
  ⟨fun sel => if sel = ".total-price" then some "Total: 18.50" else Option.none, Option.none⟩

/-- Price elements with no digits anywhere. -/
def pricePageC : PricePage :=
  ⟨fun sel => if sel = "#tPrecioSpan0" then some "Gratis" else Option.none, some "sin coste"⟩

/-- An operator display block whose text is `" Guias Roma "`. -/
def opPageGuias : OperatorPage :=
  ⟨fun sel => if sel = ".operator-name" then some " Guias Roma " else Option.none, ""⟩

/-- A session whose calendar widget is absent, so date selection fails. -/
def pgF : SchedulePage := ⟨calAbsent, [], [], "", opNone, prNone, fun _ => svNone⟩

/-- A session with one real dropdown slot (09:00, quota 2) resolving to
provider 285 at 25,00 €. -/
def pg3 : SchedulePage :=
  ⟨calPresent, [⟨"", ""⟩, ⟨"09:00", "2"⟩], [], "", opNone, prNone,
   fun _ => ⟨some "285", pricePageA⟩⟩

/-- A session where the date selects fine but all three enumeration tiers
come up empty, while the operator and price extractors would both
succeed. -/
def pgB : SchedulePage :=
  ⟨calPresent, [], [], "Punto de encuentro", opPageGuias, pricePageA, fun _ => svNone⟩

/-! ### Helper lemmas -/

/-- Either the fallback scan clicks some cell whose normalised class
matches the target and is not inactive, or it produces `(none, false)`. -/
theorem fallbackScan_spec (target : String) (l : List String) :
    (∃ cls, fallbackScan target l = (some cls, true) ∧
        hasSubstr target (normalizeWs cls) = true ∧
        hasSubstr "inactive" (normalizeWs cls) = false) ∨
    fallbackScan target l = (Option.none, false) := by
  induction l with
  | nil => exact Or.inr rfl
  | cons cls rest ih =>
    by_cases h1 : hasSubstr target (normalizeWs cls) = true
    · by_cases h2 : hasSubstr "inactive" (normalizeWs cls) = true
      · right
        simp [fallbackScan, h1, h2]
      · left
        refine ⟨cls, ?_, h1, by simpa using h2⟩
        simp [fallbackScan, h1, h2]
    · rcases ih with ⟨cls2, he, hm, hi⟩ | he
      · left
        exact ⟨cls2, by simp [fallbackScan, h1, he], hm, hi⟩
      · right
        simp [fallbackScan, h1, he]

/-- When the first normalised match in the scanned cells is inactive, the
fallback scan returns `(none, false)` immediately — the result does not
depend on any cell after the match. -/
theorem fallbackScan_inactive_first (target cls : String) (pre post : List String)
    (hpre : ∀ c ∈ pre, hasSubstr target (normalizeWs c) = false)
    (hm : hasSubstr target (normalizeWs cls) = true)
    (hin : hasSubstr "inactive" (normalizeWs cls) = true) :
    fallbackScan target (pre ++ cls :: post) = (Option.none, false) := by
  induction pre with
  | nil => simp [fallbackScan, hm, hin]
  | cons c cs ih =>
    have hc : hasSubstr target (normalizeWs c) = false := hpre c (by simp)
    simp only [List.cons_append, fallbackScan, hc]
    exact ih (fun x hx => hpre x (by simp [hx]))

/-- `select_date_on_calendar` returns `true` only together with a clicked
matching non-inactive cell (raw-attribute match on the fast path,
normalised match on the fallback), and returns no click on `false`. -/
theorem select_date_spec (pg : CalendarPage) (y m d : Nat) :
    ((select_date_on_calendar pg y m d).2 = true →
      ∃ cls, (select_date_on_calendar pg y m d).1 = some cls ∧
        ((hasSubstr (targetClass y m d) cls = true ∧
          hasSubstr "inactive" cls = false) ∨
         (hasSubstr (targetClass y m d) (normalizeWs cls) = true ∧
          hasSubstr "inactive" (normalizeWs cls) = false))) ∧
    ((select_date_on_calendar pg y m d).2 = false →
      (select_date_on_calendar pg y m d).1 = Option.none) := by
  by_cases hw : pg.widgetPresent = false
  · constructor
    · intro ht
      rw [select_date_on_calendar, if_pos hw] at ht
      exact absurd ht (by simp)
    · intro _
      rw [select_date_on_calendar, if_pos hw]
  · rw [select_date_on_calendar, if_neg hw]
    cases hf : pg.tdCells.find? (fun cls => hasSubstr (targetClass y m d) cls) with
    | some cls =>
      simp only [hf]
      by_cases hi : hasSubstr "inactive" cls = true
      · rw [if_pos hi]
        rcases fallbackScan_spec (targetClass y m d) pg.dayCells with ⟨c2, he, hm2, hi2⟩ | he
        · rw [he]
          exact ⟨fun _ => ⟨c2, rfl, Or.inr ⟨hm2, hi2⟩⟩, fun hfa => absurd hfa (by simp)⟩
        · rw [he]
          exact ⟨fun ht => absurd ht (by simp), fun _ => rfl⟩
      · rw [if_neg hi]
        refine ⟨fun _ => ⟨cls, rfl, Or.inl ⟨List.find?_some hf, ?_⟩⟩,
          fun hfa => absurd hfa (by simp)⟩
        simpa using hi
    | none =>
      simp only [hf]
      rcases fallbackScan_spec (targetClass y m d) pg.dayCells with ⟨c2, he, hm2, hi2⟩ | he
      · rw [he]
        exact ⟨fun _ => ⟨c2, rfl, Or.inr ⟨hm2, hi2⟩⟩, fun hfa => absurd hfa (by simp)⟩
      · rw [he]
        exact ⟨fun ht => absurd ht (by simp), fun _ => rfl⟩

/-- Every candidate the dropdown scan starting at DOM position `n` emits
comes from the source option at position `index - n + 1` of the scanned
list — its `index` is the option's DOM position minus one, not its emission
rank. -/
theorem tier1Scan_mem (l : List OptionEl) :
    ∀ n sch, sch ∈ tier1Scan n l →
      ∃ j o, l.get? j = some o ∧ sch.index = n + j - 1 ∧ o.value = sch.time ∧
        sch.time ≠ "" ∧ sch.quota = quotaText o.dataQuota := by
  induction l with
  | nil =>
    intro n sch h
    simp [tier1Scan] at h
  | cons o rest ih =>
    intro n sch h
    simp only [tier1Scan] at h
    by_cases hv : o.value ≠ ""
    · rw [if_pos hv] at h
      rcases List.mem_cons.mp h with rfl | h
      · exact ⟨0, o, rfl, by simp, rfl, hv, rfl⟩
      · rcases ih (n + 1) sch h with ⟨j, o', hj, hidx, hval, hne, hq⟩
        exact ⟨j + 1, o', hj, by omega, hval, hne, hq⟩
    · rw [if_neg hv] at h
      rcases ih (n + 1) sch h with ⟨j, o', hj, hidx, hval, hne, hq⟩
      exact ⟨j + 1, o', hj, by omega, hval, hne, hq⟩

/-- Same for the radio scan: the `index` is the radio's DOM position. -/
theorem tier2Scan_mem (l : List String) :
    ∀ n sch, sch ∈ tier2Scan n l →
      ∃ j, l.get? j = some sch.time ∧ sch.index = n + j ∧ sch.time ≠ "" ∧
        sch.quota = Option.none := by
  induction l with
  | nil =>
    intro n sch h
    simp [tier2Scan] at h
  | cons v rest ih =>
    intro n sch h
    simp only [tier2Scan] at h
    by_cases hv : v ≠ ""
    · rw [if_pos hv] at h
      rcases List.mem_cons.mp h with rfl | h
      · exact ⟨0, rfl, by simp, hv, rfl⟩
      · rcases ih (n + 1) sch h with ⟨j, hj, hidx, hne, hq⟩
        exact ⟨j + 1, hj, by omega, hne, hq⟩
    · rw [if_neg hv] at h
      rcases ih (n + 1) sch h with ⟨j, hj, hidx, hne, hq⟩
      exact ⟨j + 1, hj, by omega, hne, hq⟩

/-- The `enumerate` scan emits consecutive indices from `n`. -/
theorem tier3Scan_indices (l : List String) :
    ∀ n, (tier3Scan n l).map Schedule.index = List.range' n l.length := by
  induction l with
  | nil => intro n; rfl
  | cons t rest ih =>
    intro n
    simp only [tier3Scan, List.map_cons, List.length_cons, List.range'_succ]
    exact congrArg (n :: ·) (ih (n + 1))

/-- The `enumerate` scan emits one candidate per input string. -/
theorem tier3Scan_length (l : List String) :
    ∀ n, (tier3Scan n l).length = l.length := by
  induction l with
  | nil => intro n; rfl
  | cons t rest ih =>
    intro n
    simp only [tier3Scan, List.length_cons, ih (n + 1)]

/-- Whatever `tryText` returns ends in the `" €"` suffix. -/
theorem tryText_ends (t s : String) (h : tryText t = some s) :
    ∃ g : String, s = g ++ " €" := by
  simp only [tryText] at h
  split at h
  · exact ⟨_, (Option.some.inj h).symm⟩
  · split at h
    · exact ⟨_, (Option.some.inj h).symm⟩
    · exact absurd h (by simp)

/-- Whatever the selector loop returns ends in the `" €"` suffix. -/
theorem priceFromSelectors_ends (pg : PricePage) (sels : List String) (s : String)
    (h : priceFromSelectors pg sels = some s) : ∃ g : String, s = g ++ " €" := by
  induction sels with
  | nil => exact absurd h (by simp [priceFromSelectors])
  | cons sel rest ih =>
    simp only [priceFromSelectors] at h
    split at h
    · rename_i t heq
      split at h
      · rename_i p hp
        obtain rfl : p = s := Option.some.inj h
        exact tryText_ends t _ hp
      · exact ih h
    · exact ih h

/-- Every dict `get_schedules_and_operators` emits has either the
five-key per-slot shape or the three-key sentinel shape. -/
theorem gso_key_shapes (pg : SchedulePage) (url : String) (y m d : Nat) (language : String) :
    ∀ dct ∈ get_schedules_and_operators pg url y m d language,
      keys dct = ["time", "operator", "price", "quota", "provider_id"] ∨
      keys dct = ["time", "operator", "price"] := by
  intro dct hmem
  simp only [get_schedules_and_operators] at hmem
  split at hmem
  · right
    rw [List.mem_singleton.mp hmem]
    rfl
  · split at hmem
    · right
      rw [List.mem_singleton.mp hmem]
      rfl
    · rcases List.mem_map.mp hmem with ⟨sch, _, rfl⟩
      left
      rfl

/-! ### The claims -/

/-- C1: a fault raised anywhere inside the orchestrated body (navigation,
calendar, enumeration, resolution, extraction) is caught at the
`compare_all_schedules` boundary and converted into a single sentinel
`SlotResult` whose `operator` field embeds the fault description — the
call returns that list instead of raising, for every url, date and
language. -/
theorem c1_error_sentinel (e url : String) (y m d : Nat) (language : String) :
    compare_all_schedules (Except.error e) url y m d language = [errorResult e] ∧
    (errorResult e).lookup "operator" = some (PyVal.s ("Error: " ++ e)) ∧
    (errorResult e).lookup "time" = some (PyVal.s "N/A") :=
  ⟨rfl, rfl, rfl⟩

/-- C2 counterexample: the claim renders an unmapped provider id as
`"Provider #<id>"`, but the code's synthesized label is the Spanish
`"Proveedor #<id>"` — at id `"99999"` the two differ. -/
theorem c2_counterexample :
    resolve_operator "99999" = "Proveedor #99999" ∧
    resolve_operator "99999" ≠ "Provider #99999" := by
  decide

/-- C2 (amended): providerId `"36417"` resolves to `"Enroma"`; an id
absent from the directory is rendered as `"Proveedor #<id>"`; an empty id
or an absent `#idProveedor` field yields `"Desconocido"` rather than a
failure. -/
theorem c2_provider_resolution :
    resolve_operator "36417" = "Enroma" ∧
    resolve_operator "" = "Desconocido" ∧
    (∀ pid : String, pid ≠ "" → provider_names.lookup pid = Option.none →
      resolve_operator pid = "Proveedor #" ++ pid) ∧
    ∀ (view : SlotView) (sch : Schedule), view.providerField = Option.none →
      (resolveSlot view sch).lookup "operator" = some (PyVal.s "Desconocido") := by
  refine ⟨by decide, by decide, ?_, ?_⟩
  · intro pid h1 h2
    rw [resolve_operator, if_pos h1, h2]
  · intro view sch h
    simp only [resolveSlot, h]
    rfl

/-- C2 witness: the amended resolution evaluated at the unmapped id. -/
theorem c2_provider_resolution_witness :
    resolve_operator "99999" = "Proveedor #" ++ "99999" :=
  c2_provider_resolution.2.2.1 "99999" (by decide) (by decide)

/-- C7: when calendar date selection fails, `compare_all_schedules`
short-circuits to exactly one `time = "N/A"` sentinel describing the
date-selection failure; the right-hand side is a constant, so no slot
enumeration or resolution influences the result. -/
theorem c7_date_failure_short_circuit (pg : SchedulePage) (url : String) (y m d : Nat)
    (language : String)
    (h : (select_date_on_calendar pg.calendar y m d).2 = false) :
    compare_all_schedules (Except.ok pg) url y m d language = [dateFailResult] ∧
    (dateFailResult.lookup "time" = some (PyVal.s "N/A")) := by
  refine ⟨?_, rfl⟩
  simp only [compare_all_schedules, get_schedules_and_operators, if_pos h]
  rfl

/-- C7 witness: the short circuit evaluated on a session whose calendar
widget never appears. -/
theorem c7_date_failure_short_circuit_witness :
    compare_all_schedules (Except.ok pgF) "url" 2025 2 15 "es" = [dateFailResult] :=
  (c7_date_failure_short_circuit pgF "url" 2025 2 15 "es" (by decide)).1

/-- C10: every non-null string `extract_price` returns carries the
normalised suffix `" €"` (a space and the euro sign), whichever selector,
regex or page-side fallback produced it. -/
theorem c10_price_suffix_invariant (pg : PricePage) (s : String)
    (h : extract_price pg = some s) : ∃ g : String, s = g ++ " €" := by
  simp only [extract_price] at h
  split at h
  · rename_i p hp
    obtain rfl : p = s := Option.some.inj h
    exact priceFromSelectors_ends pg price_selectors _ hp
  · split at h
    · rename_i js hjs
      split at h
      · split at h
        · exact ⟨_, (Option.some.inj h).symm⟩
        · exact absurd h (by simp)
      · exact absurd h (by simp)
    · exact absurd h (by simp)

/-- C10 witness: the invariant evaluated at a page quoting `"25,00 €"`. -/
theorem c10_price_suffix_invariant_witness : ∃ g : String, "25,00 €" = g ++ " €" :=
  c10_price_suffix_invariant pricePageA "25,00 €" (by decide)

/-- C3: whenever date selection succeeds and the enumerator discovers at
least one candidate, `compare_all_schedules` returns a non-empty list with
exactly one result per discovered candidate, in enumeration order (the
`i`-th result is the resolution of the `i`-th candidate — nothing is
sorted or skipped). -/
theorem c3_one_result_per_candidate (pg : SchedulePage) (url : String) (y m d : Nat)
    (language : String)
    (h1 : (select_date_on_calendar pg.calendar y m d).2 = true)
    (h2 : enumerate_schedules pg ≠ []) :
    compare_all_schedules (Except.ok pg) url y m d language ≠ [] ∧
    (compare_all_schedules (Except.ok pg) url y m d language).length
      = (enumerate_schedules pg).length ∧
    ∀ i : Nat, (compare_all_schedules (Except.ok pg) url y m d language).get? i
      = ((enumerate_schedules pg).get? i).map
          (fun sch => resolveSlot (pg.slotView sch) sch) := by
  have hsel : ¬ ((select_date_on_calendar pg.calendar y m d).2 = false) := by
    simp [h1]
  have key : compare_all_schedules (Except.ok pg) url y m d language
      = (enumerate_schedules pg).map (fun sch => resolveSlot (pg.slotView sch) sch) := by
    simp only [compare_all_schedules, get_schedules_and_operators, if_neg hsel,
      if_neg h2]
    rw [if_neg (by simpa using h2)]
  refine ⟨?_, ?_, ?_⟩
  · rw [key]
    simpa using h2
  · rw [key, List.length_map]
  · intro i
    rw [key, List.get?_map]

/-- C3 witness: a session with one dropdown slot yields a non-empty result
list. -/
theorem c3_one_result_per_candidate_witness :
    compare_all_schedules (Except.ok pg3) "url" 2025 2 15 "es" ≠ [] :=
  (c3_one_result_per_candidate pg3 "url" 2025 2 15 "es" (by decide) (by decide)).1

/-- C4: on a page whose date selects fine but where all three enumeration
tiers are empty, the call returns one `time = "N/A"` sentinel that carries
the best-effort price, yet its `operator` field is the fixed message
`"No se encontraron horarios"` — the operator the extractor computed on
line 202 (here `"Guias Roma"`) is discarded, contradicting the documented
best-effort-operator behaviour. -/
theorem c4_no_slots_sentinel_drops_operator :
    get_schedules_and_operators pgB "url" 2025 2 15 "es"
      = [noSchedulesResult (some "25,00 €")] ∧
    extract_price pgB.emptyPricePage = some "25,00 €" ∧
    extract_operator_info pgB.emptyOperatorPage = "Guias Roma" ∧
    (noSchedulesResult (some "25,00 €")).lookup "operator"
      = some (PyVal.s "No se encontraron horarios") ∧
    "No se encontraron horarios" ≠ extract_operator_info pgB.emptyOperatorPage := by
  decide

/-- C5 counterexample: the date-selection-failure sentinel is an element
of a `compare_all_schedules` result that carries neither a `quota` nor a
`provider_id` key, so not every returned element carries all five
fields. -/
theorem c5_counterexample :
    compare_all_schedules (Except.ok pgF) "url" 2025 2 15 "es" = [dateFailResult] ∧
    dateFailResult.lookup "quota" = Option.none ∧
    dateFailResult.lookup "provider_id" = Option.none ∧
    dateFailResult.lookup "time" = some (PyVal.s "N/A") := by
  decide

/-- C5 (amended): every element of a `compare_all_schedules` result is one
of exactly two dict shapes — a per-slot result carrying all five fields
(`time`, `operator`, `price`, `quota`, `provider_id`) or a sentinel
carrying only `time`, `operator` and `price`. -/
theorem c5_result_key_shapes (session : Except String SchedulePage) (url : String)
    (y m d : Nat) (language : String) :
    ∀ dct ∈ compare_all_schedules session url y m d language,
      keys dct = ["time", "operator", "price", "quota", "provider_id"] ∨
      keys dct = ["time", "operator", "price"] := by
  intro dct hmem
  cases session with
  | error e =>
    right
    rw [List.mem_singleton.mp hmem]
    rfl
  | ok pg =>
    simp only [compare_all_schedules] at hmem
    split at hmem
    · right
      rw [List.mem_singleton.mp hmem]
      rfl
    · exact gso_key_shapes pg url y m d language dct hmem

/-- C5 witness: the shape dichotomy evaluated at the error sentinel. -/
theorem c5_result_key_shapes_witness :
    keys (errorResult "boom") = ["time", "operator", "price", "quota", "provider_id"] ∨
    keys (errorResult "boom") = ["time", "operator", "price"] :=
  c5_result_key_shapes (Except.error "boom") "url" 2025 2 15 "es" (errorResult "boom")
    (by decide)

/-- C6: `select_date_on_calendar` returns `true` only after clicking a day
cell whose class matches the target date's encoded class and is not marked
inactive (raw attribute on the fast path, whitespace-normalised in the
fallback); every `false` path clicks no day cell — in particular an absent
widget — and when the fast path misses and the first normalised match of
the fallback scan is inactive, the call is `(none, false)` regardless of
the cells after the match (no retry). -/
theorem c6_select_date_click_contract (pg : CalendarPage) (y m d : Nat) :
    ((select_date_on_calendar pg y m d).2 = true →
      ∃ cls, (select_date_on_calendar pg y m d).1 = some cls ∧
        ((hasSubstr (targetClass y m d) cls = true ∧
          hasSubstr "inactive" cls = false) ∨
         (hasSubstr (targetClass y m d) (normalizeWs cls) = true ∧
          hasSubstr "inactive" (normalizeWs cls) = false))) ∧
    ((select_date_on_calendar pg y m d).2 = false →
      (select_date_on_calendar pg y m d).1 = Option.none) ∧
    ∀ (pre : List String) (cls : String) (post : List String),
      pg.widgetPresent = true →
      (∀ c ∈ pg.tdCells, hasSubstr (targetClass y m d) c = false) →
      pg.dayCells = pre ++ cls :: post →
      (∀ c ∈ pre, hasSubstr (targetClass y m d) (normalizeWs c) = false) →
      hasSubstr (targetClass y m d) (normalizeWs cls) = true →
      hasSubstr "inactive" (normalizeWs cls) = true →
      select_date_on_calendar pg y m d = (Option.none, false) := by
  refine ⟨(select_date_spec pg y m d).1, (select_date_spec pg y m d).2, ?_⟩
  intro pre cls post hw htd hday hpre hm hin
  have hw' : ¬ (pg.widgetPresent = false) := by simp [hw]
  have hfind : pg.tdCells.find? (fun c => hasSubstr (targetClass y m d) c)
      = Option.none := by
    rw [List.find?_eq_none]
    intro x hx
    simp [htd x hx]
  rw [select_date_on_calendar, if_neg hw']
  simp only [hfind, hday]
  exact fallbackScan_inactive_first (targetClass y m d) cls pre post hpre hm hin

/-- C6 witness: the fallback-inactive path evaluated on a calendar whose
only matching cell is inactive and escapes the raw fast-path selector. -/
theorem c6_select_date_click_contract_witness :
    select_date_on_calendar calInactive 2025 2 15 = (Option.none, false) :=
  (c6_select_date_click_contract calInactive 2025 2 15).2.2
    [] "day  inactive calendar-day-2025-02-15" [] (by decide) (by decide) rfl
    (by decide) (by decide) (by decide)

/-- C8: the price extractor applies its two regexes in order — the
currency-symbol pattern wins whenever it matches, even if the loose
two-decimal pattern also matches — appending the normalised `" €"` suffix;
concretely, element text `"25,00 €"` yields `"25,00 €"`, text
`"Total: 18.50"` (no symbol) yields `"18.50 €"`, and text with no digits
yields `None`. -/
theorem c8_price_extraction_examples :
    extract_price pricePageA = some "25,00 €" ∧
    extract_price pricePageB = some "18.50 €" ∧
    extract_price pricePageC = Option.none ∧
    ∀ (t : String) (g : List Char), searchPrice1 (pyStrip t).toList = some g →
      tryText t = some (String.mk g ++ " €") := by
  refine ⟨by decide, by decide, by decide, ?_⟩
  intro t g h
  simp only [tryText, h]

/-- C8 witness: regex precedence evaluated at `"25,00 €"`, where both
regexes match and the first one's group is used. -/
theorem c8_price_extraction_examples_witness :
    tryText "25,00 €" = some (String.mk "25,00".toList ++ " €") :=
  c8_price_extraction_examples.2.2.2 "25,00 €" "25,00".toList (by decide)

/-- C9 counterexample: with a placeholder, an empty-valued option and one
valued option, the dropdown tier emits a single candidate whose
`ordinalIndex` is 1, not the consecutive-from-zero emission rank the claim
requires. -/
theorem c9_counterexample :
    (tier1 [⟨"", ""⟩, ⟨"", ""⟩, ⟨"10:00", ""⟩]).map Schedule.index = [1] ∧
    (tier1 [⟨"", ""⟩, ⟨"", ""⟩, ⟨"10:00", ""⟩]).map Schedule.index
      ≠ List.range (tier1 [⟨"", ""⟩, ⟨"", ""⟩, ⟨"10:00", ""⟩]).length := by
  decide

/-- C9 (amended): each tier assigns `ordinalIndex` from the candidate's
position in that tier's scan of the source entries — the dropdown tier uses
the option's DOM position minus one (for the skipped placeholder), the
radio tier the radio's DOM position, so entries skipped for empty values
leave gaps; only the regex tier (which scans an already-filtered sorted
list) emits consecutive indices 0, 1, 2, …. -/
theorem c9_ordinal_index_positional :
    (∀ (opts : List OptionEl) (sch : Schedule), sch ∈ tier1 opts →
      ∃ o : OptionEl, opts.get? (sch.index + 1) = some o ∧ o.value = sch.time ∧
        sch.time ≠ "" ∧ sch.quota = quotaText o.dataQuota) ∧
    (∀ (vals : List String) (sch : Schedule), sch ∈ tier2 vals →
      vals.get? sch.index = some sch.time ∧ sch.time ≠ "") ∧
    ∀ formText : String, (tier3 formText).map Schedule.index
      = List.range (tier3 formText).length := by
  refine ⟨?_, ?_, ?_⟩
  · intro opts sch h
    rw [tier1] at h
    split at h
    · rcases tier1Scan_mem (opts.drop 1) 1 sch h with ⟨j, o, hj, hidx, hval, hne, hq⟩
      refine ⟨o, ?_, hval, hne, hq⟩
      rw [show sch.index + 1 = 1 + j by omega, ← List.get?_drop]
      exact hj
    · exact absurd h (by simp)
  · intro vals sch h
    rcases tier2Scan_mem vals 0 sch h with ⟨j, hj, hidx, hne, _⟩
    rw [show sch.index = j by omega]
    exact ⟨hj, hne⟩
  · intro formText
    rw [tier3, tier3Scan_indices _ 0, tier3Scan_length _ 0, List.range_eq_range']

/-- C9 witness: the positional indexing evaluated at a dropdown whose only
valued option sits at DOM position 1. -/
theorem c9_ordinal_index_positional_witness :
    ∃ o : OptionEl, ([⟨"", ""⟩, ⟨"10:00", ""⟩] : List OptionEl).get? (0 + 1) = some o ∧
      o.value = "10:00" ∧ ("10:00" : String) ≠ "" ∧
      (Option.none : Option String) = quotaText o.dataQuota :=
  c9_ordinal_index_positional.1 [⟨"", ""⟩, ⟨"10:00", ""⟩] ⟨"10:00", 0, Option.none⟩
    (by decide)

end Civitatis

